import Mathlib

/-!
Shallow embedding of the layer mixins of aio_sf_streaming
(src/aio_sf_streaming/mixins.py): TimeoutAdviceMixin, ReplayMixin,
AutoVersionMixin, AutoReconnectMixin and ReSubscribeMixin.

Each coroutine method is embedded as a pure function; awaited inner-layer
calls become explicit parameters or entries of an effect trace, and
fire-and-forget tasks created with loop.create_task become scheduled-task
entries of the trace (they are recorded, never executed, by the embedded
step).  Python exceptions (KeyError, IndexError, TypeError) are embedded
with Except over an error type.
-/

/-- Python exception kinds raised by the code paths modelled here. -/
inductive PyErr
  | keyError
  | indexError
  | typeError
deriving DecidableEq, Repr

/-- Embedding of the advice object of a frame: the optional field models
the presence of the key timeout inside message.advice. -/
structure AdviceData where
  timeout : Option ℚ := none
deriving DecidableEq, Repr

/-- Embedding of message.data.event with the two fields the replay layer
reads; a field set to none models an absent key, read as a KeyError. -/
structure EventData where
  replayId : Option Int := none
  createdDate : Option String := none
deriving DecidableEq, Repr

/-- Embedding of message.data: the optional event field models the
presence of the key event. -/
structure MessageData where
  event : Option EventData := none
deriving DecidableEq, Repr

/-- Protocol frame as read by the mixins: channel is required (every
mixin indexes message with the key channel), the other fields optional. -/
structure Message where
  channel : String
  error : Option String := none
  advice : Option AdviceData := none
  data : Option MessageData := none
deriving DecidableEq, Repr

/-- Python str.startswith(pre): the characters of pre form an initial
segment of the characters of s. -/
def pyStartsWith (s pre : String) : Bool :=
  pre.data.isPrefixOf s.data

namespace TimeoutAdviceMixin

/-- Per-frame step of TimeoutAdviceMixin.messages: given the current
session timeout and one frame from the inner layer, return the new
session timeout and the frame re-yielded to the caller.  Mirrors:
if message.get('channel', '') == '/meta/connect' and 'advice' in message,
read timeout_advice = message['advice'].get('timeout', None) and, when
truthy, set self.timeout = timeout_advice / 1000; the frame is always
yielded unchanged. -/
def messagesStep (timeout : ℚ) (m : Message) : ℚ × Message :=
  if m.channel = "/meta/connect" then
    match m.advice with
    | some advice =>
      match advice.timeout with
      | some timeoutAdvice =>
        -- Python truthiness: a number is falsy exactly when it is zero
        if timeoutAdvice ≠ 0 then (timeoutAdvice / 1000, m) else (timeout, m)
      | none => (timeout, m)
    | none => (timeout, m)
  else (timeout, m)

end TimeoutAdviceMixin

/-- Enumeration ReplayType with the two special replay values. -/
inductive ReplayType
  | ALL_EVENTS
  | NEW_EVENTS
deriving DecidableEq, Repr

/-- Numeric value of each ReplayType member: ALL_EVENTS = -2,
NEW_EVENTS = -1. -/
def ReplayType.value : ReplayType → Int
  | .ALL_EVENTS => -2
  | .NEW_EVENTS => -1

/-- Value returned by the get_last_replay_id callback, typed in the
source as Union[ReplayType, int] with None standing for no response. -/
inductive StoredReplayId
  | noneValue
  | intValue (n : Int)
  | enumValue (t : ReplayType)
deriving DecidableEq, Repr

/-- Python truthiness of a StoredReplayId: None is falsy, an int is falsy
exactly when zero, an enum member is always truthy. -/
def StoredReplayId.truthy : StoredReplayId → Bool
  | .noneValue => false
  | .intValue n => n ≠ 0
  | .enumValue _ => true

/-- Association-list update with Python dict assignment semantics:
replace the value of an existing key in place, else append the pair. -/
def dictInsert (l : List (String × Int)) (k : String) (v : Int) :
    List (String × Int) :=
  match l with
  | [] => [(k, v)]
  | (k2, v2) :: rest =>
    if k2 = k then (k, v) :: rest else (k2, v2) :: dictInsert rest k v

/-- Subscribe payload restricted to the part the replay layer writes:
the mapping payload.ext.replay from channel names to integers. -/
structure SubscribePayload where
  ext_replay : List (String × Int) := []
deriving DecidableEq, Repr

/-- Scheduled fire-and-forget task recorded by ReplayMixin.messages:
loop.create_task(self.store_replay_id(channel, replay_id, creation_time)). -/
inductive ReplayEffect
  | storeTask (channel : String) (replayId : Int) (creationTime : String)
deriving DecidableEq, Repr

namespace ReplayMixin

/-- Replay id resolution of ReplayMixin.get_subscribe_payload: the falsy
check `if not replay_id` replaces a falsy response by NEW_EVENTS, then an
enum member is replaced by its value and the result coerced with int. -/
def resolveReplayId (stored : StoredReplayId) : Int :=
  let replay_id :=
    if stored.truthy then stored else .enumValue ReplayType.NEW_EVENTS
  match replay_id with
  | .enumValue t => t.value
  | .intValue n => n
  -- unreachable: a falsy value was replaced by NEW_EVENTS above
  | .noneValue => ReplayType.NEW_EVENTS.value

/-- ReplayMixin.get_subscribe_payload: take the inner payload, ask the
store (its answer is the parameter stored), resolve the replay id and
write payload['ext']['replay'][channel] = replay_id. -/
def get_subscribe_payload (inner : SubscribePayload) (channel : String)
    (stored : StoredReplayId) : SubscribePayload :=
  { ext_replay := dictInsert inner.ext_replay channel (resolveReplayId stored) }

/-- Per-frame step of ReplayMixin.messages: a frame on a /meta/ channel
is yielded with no effect; otherwise message['data']['event']['replayId']
and ['createdDate'] are read (KeyError when a key is absent), one
store_replay_id task is scheduled, and the frame is yielded. -/
def messagesStep (m : Message) : Except PyErr (List ReplayEffect × Message) :=
  let channel := m.channel
  if pyStartsWith channel "/meta/" then .ok ([], m)
  else
    match m.data with
    | none => .error .keyError
    | some d =>
      match d.event with
      | none => .error .keyError
      | some event =>
        match event.replayId with
        | none => .error .keyError
        | some replay_id =>
          match event.createdDate with
          | none => .error .keyError
          | some creation_time =>
            .ok ([.storeTask channel replay_id creation_time], m)

/-- Run of ReplayMixin.messages over a finite list of inner frames: the
scheduled store tasks and yielded frames accumulate in order until a
raised error terminates the stream. -/
def messagesRun : List Message → Except PyErr (List ReplayEffect × List Message)
  | [] => .ok ([], [])
  | m :: rest =>
    match messagesStep m with
    | .error e => .error e
    | .ok (effs, y) =>
      match messagesRun rest with
      | .error e => .error e
      | .ok (effs2, ys) => .ok (effs ++ effs2, y :: ys)

end ReplayMixin

/-- JSON value as returned by the generic resource fetch primitive
self.get, used by the version-discovery step of AutoVersionMixin. -/
inductive JVal
  | null
  | boolean (b : Bool)
  | num (q : ℚ)
  | str (s : String)
  | arr (xs : List JVal)
  | obj (fields : List (String × JVal))
deriving Repr

/-- Python subscripting x[-1]: the last element of a non-empty list
(IndexError when empty), the last character of a non-empty string
(IndexError when empty), KeyError on a dict (JSON object keys are
strings, so the integer key -1 is never present), TypeError otherwise. -/
def pyIndexLast : JVal → Except PyErr JVal
  | .arr [] => .error .indexError
  | .arr (x :: xs) => .ok (xs.getLastD x)
  | .obj _ => .error .keyError
  | .str s => if s.isEmpty then .error .indexError
              else .ok (.str (s.takeRight 1))
  | .null => .error .typeError
  | .boolean _ => .error .typeError
  | .num _ => .error .typeError

/-- Python subscripting x[k] with a string key k: dict lookup (KeyError
when the key is absent), TypeError on every non-dict value. -/
def pyIndexStr (k : String) : JVal → Except PyErr JVal
  | .obj fields =>
    match fields.lookup k with
    | some v => .ok v
    | none => .error .keyError
  | _ => .error .typeError

namespace AutoVersionMixin

/-- AutoVersionMixin.handshake: data is the value fetched from
/services/data/ and innerResult the response of the delegated inner
handshake.  The assignment self.version = data[-1]['version'] is guarded
by except (IndexError, KeyError): pass, so those two errors keep the
prior version while any other error (a TypeError from subscripting a
malformed value) propagates and the inner handshake is never reached.
On success the inner result is returned unchanged. -/
def handshake {α : Type} (version : JVal) (data : JVal) (innerResult : α) :
    Except PyErr (JVal × α) :=
  match (pyIndexLast data).bind (pyIndexStr "version") with
  | .ok v => .ok (v, innerResult)
  | .error .indexError => .ok (version, innerResult)
  | .error .keyError => .ok (version, innerResult)
  | .error e => .error e

end AutoVersionMixin

/-- Effects of the auto-reconnect layer, in trace order: an awaited call
of the inner handshake, a fire-and-forget task created with
loop.create_task(super().subscribe(channel)), and the delegated inner
subscribe and unsubscribe calls. -/
inductive AREffect
  | innerHandshake
  | scheduleInnerSubscribe (channel : String)
  | innerSubscribe (channel : String)
  | innerUnsubscribe (channel : String)
deriving DecidableEq, Repr

/-- State of AutoReconnectMixin: the set self._subchannels of subscribed
channel names, embedded as a duplicate-free list. -/
structure ARState where
  subchannels : List String
deriving DecidableEq, Repr

/-- Python set.add: no change when the element is present, else insert. -/
def setAdd (l : List String) (c : String) : List String :=
  if c ∈ l then l else l ++ [c]

namespace AutoReconnectMixin

/-- AutoReconnectMixin.subscribe: add the channel to the subscription
set, then delegate to the inner subscribe and return its result. -/
def subscribe (st : ARState) (channel : String) : ARState × List AREffect :=
  ({ subchannels := setAdd st.subchannels channel },
   [.innerSubscribe channel])

/-- AutoReconnectMixin.unsubscribe: self._subchannels.remove(channel)
raises KeyError when the channel is not in the set; otherwise the
channel is removed and the call delegated inward. -/
def unsubscribe (st : ARState) (channel : String) :
    Except PyErr (ARState × List AREffect) :=
  if channel ∈ st.subchannels then
    .ok ({ subchannels := st.subchannels.erase channel },
         [.innerUnsubscribe channel])
  else .error .keyError

/-- AutoReconnectMixin.handshake: await the inner handshake (first trace
entry), then for every channel of the subscription set create a
fire-and-forget task calling the inner subscribe directly — bypassing
the subscribe override, so the set is left unchanged — and return the
inner response unchanged. -/
def handshake {α : Type} (st : ARState) (innerResponse : α) :
    α × List AREffect × ARState :=
  (innerResponse,
   .innerHandshake :: st.subchannels.map AREffect.scheduleInnerSubscribe,
   st)

/-- Per-frame step of AutoReconnectMixin.messages: a frame on a /meta/
channel whose error field equals "403::Unknown client" triggers
await self.handshake() and is swallowed (continue); every other frame is
yielded with no effect and no state change. -/
def messagesStep (st : ARState) (m : Message) :
    Option Message × List AREffect × ARState :=
  if pyStartsWith m.channel "/meta/" && m.error == some "403::Unknown client"
  then
    let r := AutoReconnectMixin.handshake st ()
    (none, r.2.1, r.2.2)
  else (some m, [], st)

end AutoReconnectMixin

/-- One result record of a subscribe response, with the two fields read
by ReSubscribeMixin: result['successful'] and the chain
result.get('ext', {}).get('sfdc', {}).get('failureReason', ''), the
latter embedded as an optional string. -/
structure SubResult where
  successful : Bool
  failureReason : Option String := none
deriving DecidableEq, Repr

/-- The failure reason string of a result record, with the default value
of the .get chain: the empty string when the field is absent. -/
def failureReasonOf (r : SubResult) : String :=
  r.failureReason.getD ""

/-- Effects of ReSubscribeMixin.subscribe, in trace order: the awaited
inner subscribe of each attempt and each asyncio.sleep duration. -/
inductive SubEffect
  | innerSubscribe (attempt : ℕ)
  | sleep (duration : ℚ)
deriving DecidableEq, Repr

namespace ReSubscribeMixin

/-- Loop condition of ReSubscribeMixin.subscribe: the loop continues
exactly when the response is non-empty, its first result is not
successful, and the failure reason starts with SERVER_UNAVAILABLE;
in every other case the response is returned. -/
def shouldRetry (response : List SubResult) : Bool :=
  match response with
  | [] => false
  | r :: _ =>
    if r.successful then false
    else pyStartsWith (failureReasonOf r) "SERVER_UNAVAILABLE"

/-- Fuel-bounded run of the while-True loop of ReSubscribeMixin.subscribe
starting at a given attempt index: responses gives the inner subscribe
response of each attempt, d is self.retry_sub_duration.  Returns the
effect trace and the returned response, or none when the fuel runs out
with the loop still running. -/
def subscribeRun (d : ℚ) (responses : ℕ → List SubResult) :
    ℕ → ℕ → List SubEffect × Option (List SubResult)
  | _, 0 => ([], none)
  | i, fuel + 1 =>
    let response := responses i
    if shouldRetry response then
      let rest := subscribeRun d responses (i + 1) fuel
      (SubEffect.innerSubscribe i :: SubEffect.sleep d :: rest.1, rest.2)
    else ([SubEffect.innerSubscribe i], some response)

/-- ReSubscribeMixin.subscribe: run the retry loop from attempt 0. -/
def subscribe (d : ℚ) (responses : ℕ → List SubResult) (fuel : ℕ) :
    List SubEffect × Option (List SubResult) :=
  subscribeRun d responses 0 fuel

end ReSubscribeMixin

section HelperLemmas

/-- Looking up the key just written by dictInsert returns the new value. -/
theorem lookup_dictInsert (l : List (String × Int)) (k : String) (v : Int) :
    List.lookup k (dictInsert l k v) = some v := by
  induction l with
  | nil => simp [dictInsert, List.lookup]
  | cons p rest ih =>
    obtain ⟨k2, v2⟩ := p
    by_cases h : k2 = k
    · simp [dictInsert, h, List.lookup]
    · have hne : (k == k2) = false :=
        beq_eq_false_iff_ne.mpr (fun he => h he.symm)
      simp [dictInsert, h, List.lookup, hne, ih]

end HelperLemmas

/-- Claim C6, counterexample: a frame on /meta/connect carrying
advice.timeout = 0 does not set the session timeout to 0 / 1000: the
truthiness guard of the source skips a zero advice, so a prior timeout
of 5 is kept. -/
theorem C6_counterexample :
    (TimeoutAdviceMixin.messagesStep 5
      { channel := "/meta/connect", advice := some { timeout := some 0 } }).1
      ≠ (0 : ℚ) / 1000 := by
  simp [TimeoutAdviceMixin.messagesStep]

/-- Claim C6 (amended): for every frame on /meta/connect carrying a
nonzero advice.timeout = T, the session timeout becomes exactly T / 1000
and the frame is yielded unchanged; a zero advice.timeout leaves the
timeout unchanged (Python truthiness), and every frame is always yielded
downstream unchanged. -/
theorem C6_timeout_advice (timeout t : ℚ) (m : Message)
    (hch : m.channel = "/meta/connect")
    (hadv : m.advice = some { timeout := some t }) :
    (t ≠ 0 → TimeoutAdviceMixin.messagesStep timeout m = (t / 1000, m))
    ∧ (t = 0 → TimeoutAdviceMixin.messagesStep timeout m = (timeout, m))
    ∧ (TimeoutAdviceMixin.messagesStep timeout m).2 = m := by
  refine ⟨fun ht => ?_, fun ht => ?_, ?_⟩
  · simp [TimeoutAdviceMixin.messagesStep, hch, hadv, ht]
  · simp [TimeoutAdviceMixin.messagesStep, hch, hadv, ht]
  · unfold TimeoutAdviceMixin.messagesStep
    repeat' split
    all_goals rfl

/-- Witness for C6: advice.timeout = 2000 on /meta/connect sets the
session timeout to 2000 / 1000 = 2 seconds. -/
theorem C6_timeout_advice_witness :
    TimeoutAdviceMixin.messagesStep 5
      { channel := "/meta/connect", advice := some { timeout := some 2000 } }
      = ((2000 : ℚ) / 1000,
         { channel := "/meta/connect", advice := some { timeout := some 2000 } }) :=
  (C6_timeout_advice 5 2000
    { channel := "/meta/connect", advice := some { timeout := some 2000 } }
    rfl rfl).1 (by norm_num)

/-- Claim C4, counterexample: with a stored concrete cursor 0 the layer
does not send ext.replay[channel] = 0 (it sends -1): the falsy check of
the source treats the integer 0 as an absent cursor. -/
theorem C4_counterexample :
    List.lookup "/topic/X"
      (ReplayMixin.get_subscribe_payload {} "/topic/X"
        (StoredReplayId.intValue 0)).ext_replay ≠ some 0 := by
  decide

/-- Claim C4 (amended): get_subscribe_payload writes ext.replay[channel]
as -1 when the store returns no cursor, the stored integer n when the
store returns a nonzero concrete cursor n, -1 (not 0) when the stored
cursor is 0, -2 for the replay-all sentinel and -1 for the
only-new-events sentinel. -/
theorem C4_replay_payload (inner : SubscribePayload) (channel : String) :
    (List.lookup channel
       (ReplayMixin.get_subscribe_payload inner channel
         StoredReplayId.noneValue).ext_replay = some (-1))
  ∧ (∀ n : Int, n ≠ 0 → List.lookup channel
       (ReplayMixin.get_subscribe_payload inner channel
         (StoredReplayId.intValue n)).ext_replay = some n)
  ∧ (List.lookup channel
       (ReplayMixin.get_subscribe_payload inner channel
         (StoredReplayId.intValue 0)).ext_replay = some (-1))
  ∧ (List.lookup channel
       (ReplayMixin.get_subscribe_payload inner channel
         (StoredReplayId.enumValue ReplayType.ALL_EVENTS)).ext_replay
       = some (-2))
  ∧ (List.lookup channel
       (ReplayMixin.get_subscribe_payload inner channel
         (StoredReplayId.enumValue ReplayType.NEW_EVENTS)).ext_replay
       = some (-1)) := by
  refine ⟨?_, fun n hn => ?_, ?_, ?_, ?_⟩ <;>
    simp [ReplayMixin.get_subscribe_payload, ReplayMixin.resolveReplayId,
      StoredReplayId.truthy, ReplayType.value, lookup_dictInsert, *]

/-- Witness for C4: a stored cursor 1234 is sent unchanged. -/
theorem C4_replay_payload_witness :
    List.lookup "/topic/X"
      (ReplayMixin.get_subscribe_payload {} "/topic/X"
        (StoredReplayId.intValue 1234)).ext_replay = some 1234 :=
  (C4_replay_payload {} "/topic/X").2.1 1234 (by decide)

/-- Claim C9: with a stored concrete cursor 0, get_subscribe_payload
sends ext.replay[channel] = -1 rather than 0, because the no-cursor
check treats every falsy value as absent. -/
theorem C9_zero_cursor (inner : SubscribePayload) (channel : String) :
    List.lookup channel
      (ReplayMixin.get_subscribe_payload inner channel
        (StoredReplayId.intValue 0)).ext_replay = some (-1) := by
  simp [ReplayMixin.get_subscribe_payload, ReplayMixin.resolveReplayId,
    StoredReplayId.truthy, ReplayType.value, lookup_dictInsert]

/-- Claim C5: a frame on a non-meta channel carrying
data.event.replayId = r and data.event.createdDate = t makes
ReplayMixin.messages schedule exactly one store_replay_id(channel, r, t)
task and yield the frame — the task is only recorded in the trace, never
awaited by the step — while a frame on a meta channel is yielded
untouched with no store call. -/
theorem C5_replay_store (m : Message) (e : EventData) (r : Int) (t : String) :
    (pyStartsWith m.channel "/meta/" = false →
     m.data = some { event := some e } →
     e.replayId = some r → e.createdDate = some t →
     ReplayMixin.messagesStep m =
       .ok ([ReplayEffect.storeTask m.channel r t], m))
  ∧ (pyStartsWith m.channel "/meta/" = true →
     ReplayMixin.messagesStep m = .ok ([], m)) := by
  constructor
  · intro hmeta hdata hr ht
    simp [ReplayMixin.messagesStep, hmeta, hdata, hr, ht]
  · intro hmeta
    simp [ReplayMixin.messagesStep, hmeta]

/-- Witness for C5: the data frame of the spec example, on /topic/X with
replayId 77 and createdDate t1, schedules one store task with those
values and is yielded; a /meta/connect frame passes through untouched. -/
theorem C5_replay_store_witness :
    (ReplayMixin.messagesStep
       { channel := "/topic/X",
         data := some (MessageData.mk (some
           { replayId := some 77, createdDate := some "t1" })) } =
       .ok ([ReplayEffect.storeTask "/topic/X" 77 "t1"],
         { channel := "/topic/X",
           data := some (MessageData.mk (some
             { replayId := some 77, createdDate := some "t1" })) }))
  ∧ (ReplayMixin.messagesStep { channel := "/meta/connect" } =
       .ok ([], { channel := "/meta/connect" })) :=
  ⟨(C5_replay_store
      { channel := "/topic/X",
        data := some (MessageData.mk (some
          { replayId := some 77, createdDate := some "t1" })) }
      { replayId := some 77, createdDate := some "t1" } 77 "t1").1
      (by decide) rfl rfl rfl,
   (C5_replay_store { channel := "/meta/connect" } {} 0 "").2 (by decide)⟩

/-- Claim C10: a frame on a non-meta channel that lacks the data field,
or whose data lacks an event carrying both replayId and createdDate,
makes ReplayMixin.messages raise a KeyError instead of yielding, and the
raised error terminates the whole stream run whatever frames follow. -/
theorem C10_missing_event (m : Message)
    (hmeta : pyStartsWith m.channel "/meta/" = false)
    (hmissing : m.data = none
      ∨ m.data.bind MessageData.event = none
      ∨ (m.data.bind MessageData.event).bind EventData.replayId = none
      ∨ (m.data.bind MessageData.event).bind EventData.createdDate = none) :
    ReplayMixin.messagesStep m = .error PyErr.keyError
    ∧ ∀ rest, ReplayMixin.messagesRun (m :: rest) = .error PyErr.keyError := by
  have hstep : ReplayMixin.messagesStep m = .error PyErr.keyError := by
    rcases hm : m.data with _ | d
    · simp [ReplayMixin.messagesStep, hmeta, hm]
    · rcases he : d.event with _ | e
      · simp [ReplayMixin.messagesStep, hmeta, hm, he]
      · rcases hr : e.replayId with _ | r
        · simp [ReplayMixin.messagesStep, hmeta, hm, he, hr]
        · rcases ht : e.createdDate with _ | t
          · simp [ReplayMixin.messagesStep, hmeta, hm, he, hr, ht]
          · exfalso
            rcases hmissing with h | h | h | h <;> simp [hm, he, hr, ht] at h
  exact ⟨hstep, fun rest => by simp [ReplayMixin.messagesRun, hstep]⟩

/-- Witness for C10: a /topic/X frame with no data field raises KeyError. -/
theorem C10_missing_event_witness :
    ReplayMixin.messagesStep { channel := "/topic/X" } =
      .error PyErr.keyError :=
  (C10_missing_event { channel := "/topic/X" } (by decide) (Or.inl rfl)).1

/-- Claim C1: a frame on a meta channel whose error equals
"403::Unknown client" is swallowed by AutoReconnectMixin.messages (no
frame is yielded), a handshake is performed — the inner handshake first,
then, after it completes, one fire-and-forget inner-chain resubscription
task per channel of the subscription set — and the subscription set is
left unchanged, since the resubscriptions bypass the subscribe override. -/
theorem C1_auto_reconnect (st : ARState) (m : Message)
    (hmeta : pyStartsWith m.channel "/meta/" = true)
    (herr : m.error = some "403::Unknown client") :
    AutoReconnectMixin.messagesStep st m =
      (none,
       AREffect.innerHandshake ::
         st.subchannels.map AREffect.scheduleInnerSubscribe,
       st) := by
  simp [AutoReconnectMixin.messagesStep, AutoReconnectMixin.handshake,
    hmeta, herr]

/-- Witness for C1: with subscription set containing /topic/A and
/topic/B, a session-invalidation frame on /meta/connect is swallowed,
the inner handshake runs, then both channels get a resubscription task,
and the set is unchanged. -/
theorem C1_auto_reconnect_witness :
    AutoReconnectMixin.messagesStep
      { subchannels := ["/topic/A", "/topic/B"] }
      { channel := "/meta/connect", error := some "403::Unknown client" } =
      (none,
       [AREffect.innerHandshake,
        AREffect.scheduleInnerSubscribe "/topic/A",
        AREffect.scheduleInnerSubscribe "/topic/B"],
       { subchannels := ["/topic/A", "/topic/B"] }) :=
  C1_auto_reconnect { subchannels := ["/topic/A", "/topic/B"] }
    { channel := "/meta/connect", error := some "403::Unknown client" }
    (by decide) rfl

/-- Claim C2 evaluated at the failing input: unsubscribe on a channel
not in the subscription set raises KeyError from
self._subchannels.remove(channel) — with an empty set, unsubscribing
/topic/X errors inside the layer's own bookkeeping, before delegating. -/
theorem C2_unsubscribe_raises :
    AutoReconnectMixin.unsubscribe { subchannels := [] } "/topic/X"
      = .error PyErr.keyError := by
  rfl

/-- Any run of the retry loop with positive fuel awaits the inner
subscribe of its starting attempt first. -/
theorem subscribeRun_head (d : ℚ) (responses : ℕ → List SubResult)
    (i fuel : ℕ) :
    (ReSubscribeMixin.subscribeRun d responses i (fuel + 1)).1.head? =
      some (SubEffect.innerSubscribe i) := by
  simp only [ReSubscribeMixin.subscribeRun]
  split <;> simp

/-- When every response is retryable the trace of a run starting at
attempt i alternates the inner subscribe of attempt i + k with a sleep
of d, and the loop consumes all its fuel without returning. -/
theorem subscribeRun_all_retry (d : ℚ) (responses : ℕ → List SubResult)
    (h : ∀ j, ReSubscribeMixin.shouldRetry (responses j) = true) :
    ∀ fuel i, ReSubscribeMixin.subscribeRun d responses i fuel =
      ((List.range fuel).flatMap
         (fun k => [SubEffect.innerSubscribe (i + k), SubEffect.sleep d]),
       none) := by
  intro fuel
  induction fuel with
  | zero => intro i; simp [ReSubscribeMixin.subscribeRun]
  | succ n ih =>
    intro i
    have harith : ∀ k : ℕ, i + 1 + k = i + (k + 1) := fun k => by omega
    simp [ReSubscribeMixin.subscribeRun, h i, ih (i + 1),
      List.range_succ_eq_map, List.flatMap_map, harith]

/-- Claim C3: one call of ReSubscribeMixin.subscribe returns the inner
response at once when it is empty or its first result is successful;
when the first result is unsuccessful with a failure reason starting
with SERVER_UNAVAILABLE it sleeps retry_sub_duration once and then
awaits the inner subscribe again; any other failure reason makes it
return the inner response at once, with no sleep in the trace. -/
theorem C3_resubscribe (d : ℚ) (responses : ℕ → List SubResult)
    (fuel : ℕ) :
    ((responses 0 = [] ∨
        (∃ r rest, responses 0 = r :: rest ∧ r.successful = true)) →
      ReSubscribeMixin.subscribe d responses (fuel + 1) =
        ([SubEffect.innerSubscribe 0], some (responses 0)))
  ∧ (∀ r rest, responses 0 = r :: rest → r.successful = false →
      pyStartsWith (failureReasonOf r) "SERVER_UNAVAILABLE" = true →
      ReSubscribeMixin.subscribe d responses (fuel + 2) =
        (SubEffect.innerSubscribe 0 :: SubEffect.sleep d ::
           (ReSubscribeMixin.subscribeRun d responses 1 (fuel + 1)).1,
         (ReSubscribeMixin.subscribeRun d responses 1 (fuel + 1)).2)
      ∧ (ReSubscribeMixin.subscribeRun d responses 1 (fuel + 1)).1.head? =
          some (SubEffect.innerSubscribe 1))
  ∧ (∀ r rest, responses 0 = r :: rest → r.successful = false →
      pyStartsWith (failureReasonOf r) "SERVER_UNAVAILABLE" = false →
      ReSubscribeMixin.subscribe d responses (fuel + 1) =
        ([SubEffect.innerSubscribe 0], some (responses 0))) := by
  refine ⟨fun h => ?_, fun r rest hr hs hf => ?_, fun r rest hr hs hf => ?_⟩
  · have hretry : ReSubscribeMixin.shouldRetry (responses 0) = false := by
      rcases h with h | ⟨r, rest, hr, hs⟩
      · simp [ReSubscribeMixin.shouldRetry, h]
      · simp [ReSubscribeMixin.shouldRetry, hr, hs]
    simp [ReSubscribeMixin.subscribe, ReSubscribeMixin.subscribeRun, hretry]
  · have hretry : ReSubscribeMixin.shouldRetry (responses 0) = true := by
      simp [ReSubscribeMixin.shouldRetry, hr, hs, hf]
    exact ⟨by simp [ReSubscribeMixin.subscribe, ReSubscribeMixin.subscribeRun,
        hretry], subscribeRun_head d responses 1 fuel⟩
  · have hretry : ReSubscribeMixin.shouldRetry (responses 0) = false := by
      simp [ReSubscribeMixin.shouldRetry, hr, hs, hf]
    simp [ReSubscribeMixin.subscribe, ReSubscribeMixin.subscribeRun, hretry]

/-- Witness for C3, at the three response shapes of the spec example: a
successful first result returns at once; a SERVER_UNAVAILABLE failure
sleeps once and subscribes again; a DENIED failure returns at once. -/
theorem C3_resubscribe_witness :
    (ReSubscribeMixin.subscribe 1 (fun _ => [{ successful := true }]) 1 =
      ([SubEffect.innerSubscribe 0], some [{ successful := true }]))
  ∧ (ReSubscribeMixin.subscribe 1
       (fun _ => [{ successful := false,
                    failureReason := some "SERVER_UNAVAILABLE - limit" }]) 2 =
      ([SubEffect.innerSubscribe 0, SubEffect.sleep 1,
        SubEffect.innerSubscribe 1, SubEffect.sleep 1], none))
  ∧ (ReSubscribeMixin.subscribe 1
       (fun _ => [{ successful := false,
                    failureReason := some "DENIED" }]) 1 =
      ([SubEffect.innerSubscribe 0],
       some [{ successful := false, failureReason := some "DENIED" }])) :=
  ⟨(C3_resubscribe 1 (fun _ => [{ successful := true }]) 0).1
     (Or.inr ⟨{ successful := true }, [], rfl, rfl⟩),
   ((C3_resubscribe 1
       (fun _ => [{ successful := false,
                    failureReason := some "SERVER_UNAVAILABLE - limit" }]) 0).2.1
     { successful := false, failureReason := some "SERVER_UNAVAILABLE - limit" }
     [] rfl rfl rfl).1,
   (C3_resubscribe 1
       (fun _ => [{ successful := false,
                    failureReason := some "DENIED" }]) 0).2.2
     { successful := false, failureReason := some "DENIED" } [] rfl rfl rfl⟩

/-- Claim C8: when every inner subscribe response has an unsuccessful
first result whose failure reason starts with SERVER_UNAVAILABLE, the
retry loop never returns: for every fuel bound the run ends with no
returned response, and its trace alternates one inner subscribe with one
sleep of exactly retry_sub_duration — no attempt bound, no backoff. -/
theorem C8_infinite_retry (d : ℚ) (responses : ℕ → List SubResult)
    (h : ∀ j, ReSubscribeMixin.shouldRetry (responses j) = true)
    (fuel : ℕ) :
    ReSubscribeMixin.subscribe d responses fuel =
      ((List.range fuel).flatMap
         (fun k => [SubEffect.innerSubscribe k, SubEffect.sleep d]),
       none) := by
  simpa using subscribeRun_all_retry d responses h fuel 0

/-- Witness for C8: with every response SERVER_UNAVAILABLE, two units of
fuel produce two attempts, two sleeps of the fixed duration, no result. -/
theorem C8_infinite_retry_witness :
    ReSubscribeMixin.subscribe 1
      (fun _ => [{ successful := false,
                   failureReason := some "SERVER_UNAVAILABLE - limit" }]) 2 =
      ([SubEffect.innerSubscribe 0, SubEffect.sleep 1,
        SubEffect.innerSubscribe 1, SubEffect.sleep 1], none) := by
  have h := C8_infinite_retry 1
    (fun _ => [{ successful := false,
                 failureReason := some "SERVER_UNAVAILABLE - limit" }])
    (fun _ => rfl) 2
  simpa [List.range_succ] using h

/-- Subscripting [-1] of a JSON list written with its last element
explicit returns that last element. -/
theorem pyIndexLast_concat (l : List JVal) (b : JVal) :
    pyIndexLast (JVal.arr (l ++ [b])) = .ok b := by
  cases l with
  | nil => simp [pyIndexLast]
  | cons x xs => simp [pyIndexLast, List.getLastD_concat]

/-- Claim C7, counterexample: the discovery response [42] is a non-empty
malformed sequence, yet the handshake is aborted: subscripting the
number 42 with 'version' raises a TypeError that the
except (IndexError, KeyError) of the source does not catch, so the inner
handshake is never delegated to. -/
theorem C7_counterexample :
    AutoVersionMixin.handshake (JVal.str "38.0")
      (JVal.arr [JVal.num 42]) () = .error PyErr.typeError := rfl

/-- Claim C7 (amended): handshake sets the session version to the
version field of the last entry when the discovery response is a
non-empty sequence whose last entry is a mapping containing the key
version, then delegates and returns the inner result unchanged; an
empty sequence, or a last entry mapping without the key version, leaves
the version unchanged and still delegates; but a malformed response
outside those two cases (a non-subscriptable value such as null, or a
non-mapping last entry) raises an uncaught TypeError and aborts the
handshake before the inner delegation. -/
theorem C7_auto_version {α : Type} (version : JVal) (inner : α) :
    (∀ (l : List JVal) (fields : List (String × JVal)) (v : JVal),
       fields.lookup "version" = some v →
       AutoVersionMixin.handshake version (JVal.arr (l ++ [JVal.obj fields]))
         inner = .ok (v, inner))
  ∧ (AutoVersionMixin.handshake version (JVal.arr []) inner =
       .ok (version, inner))
  ∧ (∀ (l : List JVal) (fields : List (String × JVal)),
       fields.lookup "version" = none →
       AutoVersionMixin.handshake version (JVal.arr (l ++ [JVal.obj fields]))
         inner = .ok (version, inner))
  ∧ (AutoVersionMixin.handshake version JVal.null inner =
       .error PyErr.typeError) := by
  refine ⟨fun l fields v hv => ?_, rfl, fun l fields hv => ?_, rfl⟩
  · simp [AutoVersionMixin.handshake, pyIndexLast_concat, pyIndexStr, hv,
      Except.bind]
  · simp [AutoVersionMixin.handshake, pyIndexLast_concat, pyIndexStr, hv,
      Except.bind]

/-- Witness for C7: the spec example discovery response selects the last
entry, setting the version to 42.0, and the inner result is returned. -/
theorem C7_auto_version_witness :
    AutoVersionMixin.handshake (JVal.str "37.0")
      (JVal.arr [JVal.obj [("version", JVal.str "38.0")],
                 JVal.obj [("version", JVal.str "42.0")]]) true =
      .ok (JVal.str "42.0", true) :=
  (C7_auto_version (JVal.str "37.0") true).1
    [JVal.obj [("version", JVal.str "38.0")]]
    [("version", JVal.str "42.0")] (JVal.str "42.0") rfl
